import Mathlib

/-!
Verification development for the balance-sheet-tracker backend.

The development shallowly embeds the parts of the backend that the
properties below talk about:

* `storage.ts` (`PostgresStorage`): per-entity CRUD against the relational
  tables, modelled as pure functions over an explicit `DB` state whose
  tables are lists of rows.  A SQL `SELECT ... WHERE` is a `filter`/`find?`,
  `INSERT` appends, `UPDATE ... WHERE` maps over matching rows in place and
  `DELETE ... WHERE` filters matching rows out.
* `auth.ts` (`login`, route `POST /auth/login`): password login, with the
  bcrypt collaborator abstracted as an explicit `verify` function argument.
* `ai-assistant.ts` (`generateFinancialAdvice` and its template helpers):
  the keyword-dispatch advice generator, embedded in full.
* the resource routes in `routes.ts` that the properties mention
  (`POST /incomes`, `POST /assets`, `PUT /incomes`, `PUT /expenses`,
  `DELETE /goals/:id`).

Modelling conventions, stated once:

* Numeric columns are stored by Postgres as arbitrary-precision decimal
  text and converted with `toString` / `parseFloat` at the repository
  boundary.  The embedding carries the numeric value as `ℚ` on both sides
  of that boundary and models the two conversions as the identity; the
  float-level fidelity of the conversions themselves is outside this
  embedding.
* JavaScript division can produce the non-finite values `NaN` and
  `±Infinity` when the denominator is zero.  The embedding models division
  as `jsDiv : ℚ → ℚ → Option ℚ`, collapsing every non-finite result to
  `none`; `Number.prototype.toFixed` renders that undefined class as the
  non-numeric text `"NaN"`.
* SQL `NULL` and JavaScript `undefined` are both `Option.none`; the code
  never distinguishes them for the fields modelled here (`?? null` /
  `?? undefined` map one to the other).
* `uuidv4()` is modelled as a fresh-name supply: the `DB` state carries a
  counter `fresh`, and each create consumes it.
* `new Date()` (the current clock) appearing inside `login` and inside the
  goal-achievement advice template is passed in as an explicit argument.
* Creation timestamps (`createdAt`) appear in no property below and are
  omitted from the row structures.
-/

namespace BalanceSheet

/-- JavaScript `String.prototype.includes`: substring containment on the
underlying character lists. -/
def jsIncludes (s pat : String) : Bool :=
  decide (pat.data <:+: s.data)

/-- JavaScript `String.prototype.toLowerCase` (ASCII-faithful), as a map
over the character list. -/
def jsToLower (s : String) : String :=
  String.mk (s.data.map Char.toLower)

/-- JavaScript division on finite numbers.  A zero denominator yields `NaN`
or `±Infinity` in JavaScript; the embedding collapses all of these
non-finite outcomes to `none`. -/
def jsDiv (a b : ℚ) : Option ℚ :=
  if b = 0 then none else some (a / b)

/-- Multiplication of a possibly-non-finite number by a finite constant
(`NaN * c` stays `NaN`). -/
def jsMul (a : Option ℚ) (c : ℚ) : Option ℚ :=
  a.map (fun q => q * c)

/-- JavaScript `Math.min(c, x)` (`NaN` propagates). -/
def jsMin (c : ℚ) (x : Option ℚ) : Option ℚ :=
  x.map (fun q => min c q)

/-- JavaScript `Math.max(c, x)` (`NaN` propagates). -/
def jsMax (c : ℚ) (x : Option ℚ) : Option ℚ :=
  x.map (fun q => max c q)

/-- `Number.prototype.toFixed(f)` on a finite value: round to `f` decimal
digits, ties toward positive infinity, and print with exactly `f` digits
after the point (no point when `f = 0`). -/
def toFixedQ (f : Nat) (q : ℚ) : String :=
  let p : Nat := 10 ^ f
  let scaled : Int := ⌊q * (p : ℚ) + 1 / 2⌋
  let sign := if scaled < 0 then "-" else ""
  let n := scaled.natAbs
  if f = 0 then
    sign ++ toString n
  else
    let frac := toString (n % p)
    let pad := String.mk (List.replicate (f - frac.length) (Char.ofNat 48))
    sign ++ toString (n / p) ++ "." ++ pad ++ frac

/-- `toFixed` applied to a possibly-non-finite number: the undefined class
renders as the non-numeric text `"NaN"`. -/
def jsToFixed (f : Nat) (x : Option ℚ) : String :=
  match x with
  | none => "NaN"
  | some q => toFixedQ f q

/-- A calendar instant as far as the code inspects it: `getFullYear` and
`getMonth`.  Only the goal-achievement advice does date arithmetic. -/
structure DateV where
  year : Int
  month : Int
deriving DecidableEq, Repr

/-! ## Rows (the relational tables of `shared/schema.ts`) -/

/-- Row of the `users` table. -/
structure UserRow where
  id : Nat
  username : String
  password : Option String
  email : String
  googleId : Option String
  googleName : Option String
  googlePicture : Option String
  lastLogin : Option Nat
deriving DecidableEq, Repr

/-- Row of the `incomes` table.  `amount` is a decimal-text column carried
here as its rational value; `incomeType` is the column named `type`. -/
structure IncomeRow where
  id : String
  userId : Nat
  source : String
  category : String
  amount : ℚ
  incomeType : String
  frequency : String
  notes : Option String
deriving DecidableEq, Repr

/-- Row of the `expenses` table (`date` is a timestamp, carried opaquely). -/
structure ExpenseRow where
  id : String
  userId : Nat
  category : String
  amount : ℚ
  description : String
  date : Nat
  notes : Option String
deriving DecidableEq, Repr

/-- Row of the `assets` table. -/
structure AssetRow where
  id : String
  userId : Nat
  name : String
  category : String
  value : ℚ
  incomeGenerated : ℚ
  notes : Option String
deriving DecidableEq, Repr

/-- Row of the `liabilities` table (`ltype` is the column named `type`). -/
structure LiabilityRow where
  id : String
  userId : Nat
  description : String
  ltype : String
  amount : ℚ
  interestRate : ℚ
  notes : Option String
deriving DecidableEq, Repr

/-- Row of the `goals` table. -/
structure GoalRow where
  id : String
  userId : Nat
  description : String
  targetAmount : ℚ
  currentAmount : ℚ
  targetDate : DateV
deriving DecidableEq, Repr

/-- The database state: one list per table, plus the fresh-name counter
standing in for `uuidv4()`. -/
structure DB where
  users : List UserRow
  incomes : List IncomeRow
  expenses : List ExpenseRow
  assets : List AssetRow
  liabilities : List LiabilityRow
  goals : List GoalRow
  fresh : Nat
deriving DecidableEq, Repr

/-- The id `uuidv4()` hands out for the `n`-th create. -/
def freshId (n : Nat) : String :=
  "uuid-" ++ toString n

/-! ## Mapped (API-side) record types, as in `shared/schema.ts` zod types -/

/-- API-side `Income` (`z.infer<typeof incomeSchema>` minus `createdAt`). -/
structure Income where
  id : String
  userId : Nat
  source : String
  category : String
  amount : ℚ
  incomeType : String
  frequency : String
  notes : Option String
deriving DecidableEq, Repr

/-- API-side `Expense`. -/
structure Expense where
  id : String
  userId : Nat
  category : String
  amount : ℚ
  description : String
  date : Nat
  notes : Option String
deriving DecidableEq, Repr

/-- API-side `Asset`. -/
structure Asset where
  id : String
  userId : Nat
  name : String
  category : String
  value : ℚ
  incomeGenerated : ℚ
  notes : Option String
deriving DecidableEq, Repr

/-- API-side `Liability`. -/
structure Liability where
  id : String
  userId : Nat
  description : String
  ltype : String
  amount : ℚ
  interestRate : ℚ
  notes : Option String
deriving DecidableEq, Repr

/-- API-side `Goal`. -/
structure Goal where
  id : String
  userId : Nat
  description : String
  targetAmount : ℚ
  currentAmount : ℚ
  targetDate : DateV
deriving DecidableEq, Repr

/-! ## Row-to-record mapping (the repository read boundary)

Each read maps the raw row with `parseFloat` on the numeric text (identity
here) and `notes: row.notes ?? undefined`.  `??` is nullish coalescing: it
rewrites SQL `NULL` to `undefined` (both `none` here) and leaves every
string — including the empty string — unchanged. -/

/-- `storage.ts` mapping of an income row to the API record. -/
def mapIncomeRow (r : IncomeRow) : Income :=
  { id := r.id, userId := r.userId, source := r.source, category := r.category
    amount := r.amount, incomeType := r.incomeType, frequency := r.frequency
    notes := r.notes }

/-- `storage.ts` mapping of an expense row to the API record. -/
def mapExpenseRow (r : ExpenseRow) : Expense :=
  { id := r.id, userId := r.userId, category := r.category, amount := r.amount
    description := r.description, date := r.date, notes := r.notes }

/-- `storage.ts` mapping of an asset row to the API record. -/
def mapAssetRow (r : AssetRow) : Asset :=
  { id := r.id, userId := r.userId, name := r.name, category := r.category
    value := r.value, incomeGenerated := r.incomeGenerated, notes := r.notes }

/-- `storage.ts` mapping of a liability row to the API record. -/
def mapLiabilityRow (r : LiabilityRow) : Liability :=
  { id := r.id, userId := r.userId, description := r.description
    ltype := r.ltype, amount := r.amount, interestRate := r.interestRate
    notes := r.notes }

/-- `storage.ts` mapping of a goal row to the API record. -/
def mapGoalRow (r : GoalRow) : Goal :=
  { id := r.id, userId := r.userId, description := r.description
    targetAmount := r.targetAmount, currentAmount := r.currentAmount
    targetDate := r.targetDate }

/-! ## Repository reads -/

/-- `PostgresStorage.getAllIncomes`: select where `userId` matches, map. -/
def getAllIncomes (userId : Nat) (db : DB) : List Income :=
  (db.incomes.filter (fun r => r.userId == userId)).map mapIncomeRow

/-- `PostgresStorage.getIncome`: select where `id` and `userId` both match,
take the first row, map; `undefined` when no row matches. -/
def getIncome (id : String) (userId : Nat) (db : DB) : Option Income :=
  (db.incomes.find? (fun r => r.id == id && r.userId == userId)).map mapIncomeRow

/-- `PostgresStorage.getAllExpenses`. -/
def getAllExpenses (userId : Nat) (db : DB) : List Expense :=
  (db.expenses.filter (fun r => r.userId == userId)).map mapExpenseRow

/-- `PostgresStorage.getExpense`. -/
def getExpense (id : String) (userId : Nat) (db : DB) : Option Expense :=
  (db.expenses.find? (fun r => r.id == id && r.userId == userId)).map mapExpenseRow

/-- `PostgresStorage.getAllGoals`. -/
def getAllGoals (userId : Nat) (db : DB) : List Goal :=
  (db.goals.filter (fun r => r.userId == userId)).map mapGoalRow

/-- `PostgresStorage.getGoal`: select where `id` and `userId` both match. -/
def getGoal (id : String) (userId : Nat) (db : DB) : Option Goal :=
  (db.goals.find? (fun r => r.id == id && r.userId == userId)).map mapGoalRow

/-! ## Repository creates -/

/-- Input of `createIncome` (`Omit<Income, "id" | "createdAt">`). -/
structure InsertIncome where
  userId : Nat
  source : String
  category : String
  amount : ℚ
  incomeType : String
  frequency : String
  notes : Option String
deriving DecidableEq, Repr

/-- `PostgresStorage.createIncome`: assign a fresh id, store `amount` as
decimal text (identity here) and `notes ?? null`, insert, map back. -/
def createIncome (income : InsertIncome) (db : DB) : Income × DB :=
  let row : IncomeRow :=
    { id := freshId db.fresh, userId := income.userId, source := income.source
      category := income.category, amount := income.amount
      incomeType := income.incomeType, frequency := income.frequency
      notes := income.notes }
  (mapIncomeRow row,
   { db with incomes := db.incomes ++ [row], fresh := db.fresh + 1 })

/-- Input of `createExpense`. -/
structure InsertExpense where
  userId : Nat
  category : String
  amount : ℚ
  description : String
  date : Nat
  notes : Option String
deriving DecidableEq, Repr

/-- `PostgresStorage.createExpense`. -/
def createExpense (expense : InsertExpense) (db : DB) : Expense × DB :=
  let row : ExpenseRow :=
    { id := freshId db.fresh, userId := expense.userId
      category := expense.category, amount := expense.amount
      description := expense.description, date := expense.date
      notes := expense.notes }
  (mapExpenseRow row,
   { db with expenses := db.expenses ++ [row], fresh := db.fresh + 1 })

/-- Input of `createAsset`. -/
structure InsertAsset where
  userId : Nat
  name : String
  category : String
  value : ℚ
  incomeGenerated : ℚ
  notes : Option String
deriving DecidableEq, Repr

/-- `PostgresStorage.createAsset`. -/
def createAsset (asset : InsertAsset) (db : DB) : Asset × DB :=
  let row : AssetRow :=
    { id := freshId db.fresh, userId := asset.userId, name := asset.name
      category := asset.category, value := asset.value
      incomeGenerated := asset.incomeGenerated, notes := asset.notes }
  (mapAssetRow row,
   { db with assets := db.assets ++ [row], fresh := db.fresh + 1 })

/-! ## Repository partial updates

A `Partial<Omit<E, "id" | "createdAt">>` patch: `none` is an omitted field.
Drizzle `.set` skips columns whose value is `undefined`, so an omitted
field normally leaves the column unchanged — except that each update
method builds its data with `notes: patch.notes ?? null`, which replaces
an omitted `notes` with an explicit `NULL` that *is* written. -/

/-- Patch for `updateIncome`. -/
structure IncomePatch where
  userId : Option Nat := none
  source : Option String := none
  category : Option String := none
  amount : Option ℚ := none
  incomeType : Option String := none
  frequency : Option String := none
  notes : Option String := none
deriving DecidableEq, Repr

/-- Effect of `updateIncome`'s `.set` data on one matching row: omitted
fields are skipped (`undefined` column values), but `notes` is always
written with `patch.notes ?? null`. -/
def applyIncomePatch (r : IncomeRow) (p : IncomePatch) : IncomeRow :=
  { r with
    userId := p.userId.getD r.userId
    source := p.source.getD r.source
    category := p.category.getD r.category
    amount := p.amount.getD r.amount
    incomeType := p.incomeType.getD r.incomeType
    frequency := p.frequency.getD r.frequency
    notes := p.notes }

/-- `PostgresStorage.updateIncome`: update all rows matching `id` and
`userId` in place. -/
def updateIncome (id : String) (p : IncomePatch) (userId : Nat) (db : DB) : DB :=
  let upd := fun (r : IncomeRow) =>
    if r.id == id && r.userId == userId then applyIncomePatch r p else r
  { db with incomes := db.incomes.map upd }

/-- Patch for `updateExpense`. -/
structure ExpensePatch where
  userId : Option Nat := none
  category : Option String := none
  amount : Option ℚ := none
  description : Option String := none
  date : Option Nat := none
  notes : Option String := none
deriving DecidableEq, Repr

/-- Effect of `updateExpense`'s `.set` data on one matching row. -/
def applyExpensePatch (r : ExpenseRow) (p : ExpensePatch) : ExpenseRow :=
  { r with
    userId := p.userId.getD r.userId
    category := p.category.getD r.category
    amount := p.amount.getD r.amount
    description := p.description.getD r.description
    date := p.date.getD r.date
    notes := p.notes }

/-- `PostgresStorage.updateExpense`. -/
def updateExpense (id : String) (p : ExpensePatch) (userId : Nat) (db : DB) : DB :=
  let upd := fun (r : ExpenseRow) =>
    if r.id == id && r.userId == userId then applyExpensePatch r p else r
  { db with expenses := db.expenses.map upd }

/-- Patch for `updateLiability`. -/
structure LiabilityPatch where
  userId : Option Nat := none
  description : Option String := none
  ltype : Option String := none
  amount : Option ℚ := none
  interestRate : Option ℚ := none
  notes : Option String := none
deriving DecidableEq, Repr

/-- Effect of `updateLiability`'s `.set` data on one matching row. -/
def applyLiabilityPatch (r : LiabilityRow) (p : LiabilityPatch) : LiabilityRow :=
  { r with
    userId := p.userId.getD r.userId
    description := p.description.getD r.description
    ltype := p.ltype.getD r.ltype
    amount := p.amount.getD r.amount
    interestRate := p.interestRate.getD r.interestRate
    notes := p.notes }

/-- `PostgresStorage.updateLiability`. -/
def updateLiability (id : String) (p : LiabilityPatch) (userId : Nat) (db : DB) : DB :=
  let upd := fun (r : LiabilityRow) =>
    if r.id == id && r.userId == userId then applyLiabilityPatch r p else r
  { db with liabilities := db.liabilities.map upd }

/-! ## Repository deletes -/

/-- `PostgresStorage.deleteGoal`: delete all rows matching `id` and
`userId`; deleting nothing is not an error. -/
def deleteGoal (id : String) (userId : Nat) (db : DB) : DB :=
  let keep := fun (r : GoalRow) => !(r.id == id && r.userId == userId)
  { db with goals := db.goals.filter keep }

/-! ## Authentication (`auth.ts`)

bcrypt is an external collaborator; its hash comparison is passed in as an
explicit `verify : password → storedHash → Bool` argument.  `jwt.sign`
binds the two claims `id` and `username`; the signature and expiry are
carried by the collaborator and are not inspected by any property below,
so a token is modelled as its payload. -/

/-- Payload of a token produced by `generateToken`. -/
structure Jwt where
  id : Nat
  username : String
deriving DecidableEq, Repr

/-- `comparePasswords` (bcrypt.compare).  bcrypt rejects with the error
`data and hash arguments required` when the stored hash is `null` (a
password-less OAuth account); otherwise it resolves to the boolean
verdict of `verify`. -/
def comparePasswords (verify : String → String → Bool) (password : String)
    (hashed : Option String) : Except String Bool :=
  match hashed with
  | none => Except.error "data and hash arguments required"
  | some h => Except.ok (verify password h)

/-- Successful login result: token plus the public user fields. -/
structure LoginSuccess where
  token : Jwt
  userId : Nat
  username : String
deriving DecidableEq, Repr

/-- `auth.ts` `login`: look the user up by username (`limit 1`), throw
`User not found` when absent, throw `Invalid password` when the hash does
not verify, otherwise update `lastLogin` to the current time and return a
token with the public user fields. -/
def login (verify : String → String → Bool) (username password : String)
    (now : Nat) (db : DB) : Except String (LoginSuccess × DB) :=
  match db.users.find? (fun u => u.username == username) with
  | none => Except.error "User not found"
  | some u =>
    match comparePasswords verify password u.password with
    | Except.error e => Except.error e
    | Except.ok false => Except.error "Invalid password"
    | Except.ok true =>
      let setLast := fun (v : UserRow) =>
        if v.id == u.id then { v with lastLogin := some now } else v
      Except.ok
        ({ token := { id := u.id, username := u.username }
           userId := u.id, username := u.username },
         { db with users := db.users.map setLast })

/-- Request body of `POST /auth/login` (`none` is an absent field). -/
structure LoginBody where
  username : Option String := none
  password : Option String := none
deriving DecidableEq, Repr

/-- JavaScript falsiness of a possibly-absent string (`!x` is true for
`undefined`, `null` and the empty string). -/
def isFalsyStr (s : Option String) : Bool :=
  match s with
  | none => true
  | some str => str == ""

/-- Response of `POST /auth/login`. -/
structure LoginResponse where
  status : Nat
  error : Option String := none
  result : Option LoginSuccess := none
deriving DecidableEq, Repr

/-- Route `POST /auth/login`: 400 when either credential is falsy,
otherwise run `login`; a thrown `Error` surfaces as 401 with the thrown
message as the body's `error` field. -/
def loginRoute (verify : String → String → Bool) (body : LoginBody)
    (now : Nat) (db : DB) : LoginResponse × DB :=
  if isFalsyStr body.username || isFalsyStr body.password then
    ({ status := 400, error := some "Username and password are required" }, db)
  else
    match login verify (body.username.getD "") (body.password.getD "") now db with
    | Except.error e => ({ status := 401, error := some e }, db)
    | Except.ok (r, db2) => ({ status := 200, result := some r }, db2)

/-! ## Resource routes (`routes.ts`)

Request bodies arrive as untyped JSON; a raw body field is `none` when it
is absent (or of the wrong JSON type — zod reports `Required` versus
`Expected ...` there, a distinction the embedding flattens into the field
name).  The structured zod error is modelled as the list of failing field
names, in schema order. -/

/-- Raw JSON body of `POST /incomes`. -/
structure RawIncomeBody where
  source : Option String := none
  category : Option String := none
  amount : Option ℚ := none
  incomeType : Option String := none
  frequency : Option String := none
  notes : Option String := none
deriving DecidableEq, Repr

/-- The `frequency` enum of `incomeSchema`. -/
def incomeFrequencies : List String :=
  ["monthly", "bi-weekly", "weekly", "annually", "one-time"]

/-- Field errors of `incomeSchema.omit({id, createdAt}).parse` on a raw
body (the route injects `userId` itself, which always parses). -/
def incomeBodyErrors (b : RawIncomeBody) : List String :=
  (if b.source.isNone then ["source"] else []) ++
  (if b.category.isNone then ["category"] else []) ++
  (if b.amount.isNone then ["amount"] else []) ++
  (match b.incomeType with
   | none => ["type"]
   | some t => if t == "active" || t == "passive" then [] else ["type"]) ++
  (match b.frequency with
   | none => ["frequency"]
   | some f => if incomeFrequencies.contains f then [] else ["frequency"])

/-- Zod parse of the `POST /incomes` body: the full error list on failure,
the typed insert value on success.  The `getD` defaults are unreachable
when the error list is empty. -/
def parseInsertIncome (uid : Nat) (b : RawIncomeBody) :
    Except (List String) InsertIncome :=
  match incomeBodyErrors b with
  | [] => Except.ok
      { userId := uid, source := b.source.getD "", category := b.category.getD ""
        amount := b.amount.getD 0, incomeType := b.incomeType.getD ""
        frequency := b.frequency.getD "", notes := b.notes }
  | errs => Except.error errs

/-- Shape of a resource-route JSON response: status, the structured
validation errors when status 400, and the payload when status 200. -/
structure ApiResponse (α : Type) where
  status : Nat
  errors : Option (List String) := none
  body : Option α := none
deriving Repr

/-- Route `POST /incomes`: zod-parse the body (with the caller's `userId`
injected) before any repository call; a `ZodError` yields 400 with the
structured errors and no write, success stores the record and echoes it. -/
def postIncomes (uid : Nat) (b : RawIncomeBody) (db : DB) :
    ApiResponse Income × DB :=
  match parseInsertIncome uid b with
  | Except.error errs => ({ status := 400, errors := some errs }, db)
  | Except.ok v =>
    let (inc, db2) := createIncome v db
    ({ status := 200, body := some inc }, db2)

/-- Raw JSON body of `POST /assets`. -/
structure RawAssetBody where
  name : Option String := none
  category : Option String := none
  value : Option ℚ := none
  incomeGenerated : Option ℚ := none
  notes : Option String := none
deriving DecidableEq, Repr

/-- Field errors of `assetSchema.omit({id, createdAt}).parse`: `name` and
`category` must be nonempty strings, `value` and `incomeGenerated`
non-negative numbers. -/
def assetBodyErrors (b : RawAssetBody) : List String :=
  (match b.name with
   | none => ["name"]
   | some n => if n == "" then ["name"] else []) ++
  (match b.category with
   | none => ["category"]
   | some c => if c == "" then ["category"] else []) ++
  (match b.value with
   | none => ["value"]
   | some v => if v < 0 then ["value"] else []) ++
  (match b.incomeGenerated with
   | none => ["incomeGenerated"]
   | some v => if v < 0 then ["incomeGenerated"] else [])

/-- Zod parse of the `POST /assets` body. -/
def parseInsertAsset (uid : Nat) (b : RawAssetBody) :
    Except (List String) InsertAsset :=
  match assetBodyErrors b with
  | [] => Except.ok
      { userId := uid, name := b.name.getD "", category := b.category.getD ""
        value := b.value.getD 0, incomeGenerated := b.incomeGenerated.getD 0
        notes := b.notes }
  | errs => Except.error errs

/-- Route `POST /assets`: parse before persistence, 400 with the
structured errors and no write on failure. -/
def postAssets (uid : Nat) (b : RawAssetBody) (db : DB) :
    ApiResponse Asset × DB :=
  match parseInsertAsset uid b with
  | Except.error errs => ({ status := 400, errors := some errs }, db)
  | Except.ok v =>
    let (asset, db2) := createAsset v db
    ({ status := 200, body := some asset }, db2)

/-- An element of the `PUT /incomes` bulk-sync array: `id` optional,
the remaining fields read off the element as-is (the sync route performs
no schema validation). -/
structure SyncIncomeItem where
  id : Option String := none
  source : String
  category : String
  amount : ℚ
  incomeType : String
  frequency : String
  notes : Option String := none
deriving DecidableEq, Repr

/-- The patch `PUT /incomes` passes to `updateIncome` for an element that
carries an id (every field set; `notes` passed through). -/
def syncIncomePatch (item : SyncIncomeItem) : IncomePatch :=
  { source := some item.source, category := some item.category
    amount := some item.amount, incomeType := some item.incomeType
    frequency := some item.frequency, notes := item.notes }

/-- The insert `PUT /incomes` passes to `createIncome` for an element
without an id. -/
def syncIncomeInsert (uid : Nat) (item : SyncIncomeItem) : InsertIncome :=
  { userId := uid, source := item.source, category := item.category
    amount := item.amount, incomeType := item.incomeType
    frequency := item.frequency, notes := item.notes }

/-- Route `PUT /incomes`: per element, update when it carries an id
(scoped to the caller), else create for the caller; then respond with the
caller's full income list.  The route fires the element writes with
`Promise.all`; the writes of distinct elements touch disjoint rows, so
they are modelled in array order. -/
def putIncomes (uid : Nat) (items : List SyncIncomeItem) (db : DB) :
    ApiResponse (List Income) × DB :=
  let step := fun (d : DB) (item : SyncIncomeItem) =>
    match item.id with
    | some i => updateIncome i (syncIncomePatch item) uid d
    | none => (createIncome (syncIncomeInsert uid item) d).2
  let db2 := items.foldl step db
  ({ status := 200, body := some (getAllIncomes uid db2) }, db2)

/-- An element of the `PUT /expenses` bulk-sync array. -/
structure SyncExpenseItem where
  id : Option String := none
  category : String
  amount : ℚ
  description : String
  date : Nat
deriving DecidableEq, Repr

/-- The patch `PUT /expenses` passes to `updateExpense` (the route builds
`expenseData` without `notes`, so the patch omits it). -/
def syncExpensePatch (item : SyncExpenseItem) : ExpensePatch :=
  { category := some item.category, amount := some item.amount
    description := some item.description, date := some item.date }

/-- The insert `PUT /expenses` passes to `createExpense`. -/
def syncExpenseInsert (uid : Nat) (item : SyncExpenseItem) : InsertExpense :=
  { userId := uid, category := item.category, amount := item.amount
    description := item.description, date := item.date, notes := none }

/-- Route `PUT /expenses`: upsert-by-presence-of-id per element, then
respond with the caller's full expense list. -/
def putExpenses (uid : Nat) (items : List SyncExpenseItem) (db : DB) :
    ApiResponse (List Expense) × DB :=
  let step := fun (d : DB) (item : SyncExpenseItem) =>
    match item.id with
    | some i => updateExpense i (syncExpensePatch item) uid d
    | none => (createExpense (syncExpenseInsert uid item) d).2
  let db2 := items.foldl step db
  ({ status := 200, body := some (getAllExpenses uid db2) }, db2)

/-- Response of `DELETE /goals/:id` (no body). -/
structure DeleteResponse where
  status : Nat
  error : Option String := none
deriving DecidableEq, Repr

/-- Route `DELETE /goals/:id`: run the scoped delete and answer 204
unconditionally — the handler has no not-found check, and its catch branch
fires only on a database failure, which the embedded delete cannot
produce. -/
def deleteGoalRoute (id : String) (uid : Nat) (db : DB) : DeleteResponse × DB :=
  ({ status := 204 }, deleteGoal id uid db)

/-! ## Advice generator (`ai-assistant.ts`)

`generateFinancialAdvice` is a pure function of the request, except that
the goal-achievement template reads the current date (`new Date()`); the
embedding passes that date in as `today`. -/

/-- The pre-aggregated summary inside an AI-assistant request. -/
structure Summary where
  totalIncome : ℚ
  totalExpenses : ℚ
  cashFlow : ℚ
  perDay : ℚ
  passiveIncome : ℚ
  netWorth : ℚ
  netWorthChange : ℚ
  largestExpenseCategory : String
  largestExpenseAmount : ℚ
deriving DecidableEq, Repr

/-- The `userData` object of an AI-assistant request. -/
structure UserData where
  incomes : List Income
  expenses : List Expense
  assets : List Asset
  liabilities : List Liability
  goals : List Goal
  summary : Summary
deriving DecidableEq, Repr

/-- An AI-assistant request (`aiAssistantRequestSchema`). -/
structure AIRequest where
  query : String
  userData : UserData
deriving DecidableEq, Repr

/-- `generateExpenseReductionAdvice`: interpolates the share of the
largest expense category, computed by the unguarded division
`largestExpenseAmount / totalExpenses`. -/
def generateExpenseReductionAdvice (expenses : List Expense) (totalExpenses : ℚ)
    (largestExpenseCategory : String) (largestExpenseAmount : ℚ) : String :=
  let largestExpensePercentage := jsMul (jsDiv largestExpenseAmount totalExpenses) 100
  let advice := "Based on your expense data, here are some recommendations to reduce your spending:\n\n"
  let advice := advice ++ "1. Your largest expense category is " ++ largestExpenseCategory ++
    " (" ++ jsToFixed 1 largestExpensePercentage ++ "% of total expenses). " ++
    "Consider if there are ways to reduce this expense, such as:\n"
  let advice := advice ++
    (if largestExpenseCategory == "Housing" then
      "   - Downsizing to a smaller home or apartment\n" ++
      "   - Refinancing your mortgage for a lower rate\n" ++
      "   - Taking on a roommate to share costs\n"
    else if largestExpenseCategory == "Transportation" then
      "   - Using public transportation more often\n" ++
      "   - Carpooling or ride-sharing\n" ++
      "   - Maintaining your vehicle properly to avoid costly repairs\n"
    else if largestExpenseCategory == "Food" then
      "   - Meal planning to reduce grocery waste\n" ++
      "   - Cooking at home instead of eating out\n" ++
      "   - Buying in bulk for non-perishable items\n"
    else
      "   - Reviewing subscriptions and canceling unnecessary ones\n" ++
      "   - Looking for cheaper alternatives\n" ++
      "   - Setting a strict budget for this category\n")
  advice ++ "\n2. General expense reduction strategies:\n" ++
    "   - Create a detailed budget and track all expenses\n" ++
    "   - Use the 50/30/20 rule: 50% for needs, 30% for wants, 20% for savings\n" ++
    "   - Look for recurring subscriptions you can cancel\n" ++
    "   - Consider negotiating bills like insurance, internet, and phone plans\n" ++
    "   - Use cash-back or rewards credit cards for purchases you already make\n"

/-- `generateAssetIncreaseAdvice` (the `netWorth` and `passiveIncome`
parameters are passed but unused, as in the source). -/
def generateAssetIncreaseAdvice (assets : List Asset)
    (netWorth passiveIncome : ℚ) : String :=
  let realEstateAssets := assets.filter (fun a => a.category == "Real Estate")
  let investmentAssets := assets.filter (fun a => a.category == "Investments")
  let businessAssets := assets.filter (fun a => a.category == "Business")
  let advice := "Here are strategies to increase your assets and build wealth:\n\n"
  let advice := advice ++ "1. Based on your current assets:\n"
  let advice := advice ++
    (if realEstateAssets.length == 0 then
      "   - Consider investing in real estate for long-term appreciation and rental income\n"
    else
      "   - Look for opportunities to increase the value of your existing properties\n" ++
      "   - Consider refinancing to access equity for additional investments\n")
  let advice := advice ++
    (if investmentAssets.length == 0 then
      "   - Start investing in stocks, bonds, or ETFs for long-term growth\n"
    else
      "   - Diversify your investment portfolio across different asset classes\n" ++
      "   - Consider increasing your regular investment contributions\n")
  let advice := advice ++
    (if businessAssets.length == 0 then
      "   - Explore starting a side business or investing in existing businesses\n"
    else
      "   - Look for ways to scale your existing business operations\n" ++
      "   - Consider reinvesting profits to grow the business\n")
  advice ++ "\n2. General strategies to increase assets:\n" ++
    "   - Increase your savings rate to invest more money\n" ++
    "   - Focus on building passive income streams (rental properties, dividends, etc.)\n" ++
    "   - Invest in your skills and education to increase earning potential\n" ++
    "   - Consider tax-advantaged accounts like 401(k)s, IRAs, or HSAs\n" ++
    "   - Look for opportunities to convert expenses into assets (e.g., buying a home instead of renting)\n"

/-- `generateLiabilityReductionAdvice`: the percentage line is guarded by
`totalLiabilities > 0`, so its division never sees a zero denominator. -/
def generateLiabilityReductionAdvice (liabilities : List Liability)
    (cashFlow : ℚ) : String :=
  let highInterestLiabilities := liabilities.filter (fun l => l.interestRate > 5)
  let totalLiabilities := liabilities.foldl (fun sum l => sum + l.amount) 0
  let advice := "Here are strategies to reduce your liabilities and become debt-free:\n\n"
  let advice := advice ++ "1. Based on your current liabilities:\n"
  let advice := advice ++
    (if highInterestLiabilities.length > 0 then
      "   - Prioritize paying off high-interest debt first (debt avalanche method)\n" ++
      "   - Consider debt consolidation or refinancing to lower interest rates\n"
    else "")
  let advice := advice ++
    (if totalLiabilities > 0 then
      "   - Create a debt repayment plan with specific timelines\n" ++
      "   - Allocate " ++
      jsToFixed 0 (jsMin 20 (jsMax 5 (jsMul (jsDiv cashFlow totalLiabilities) 100))) ++
      "% of your monthly cash flow to debt repayment\n"
    else "")
  advice ++ "\n2. Specific debt reduction strategies:\n" ++
    "   - Use the debt snowball method: pay minimum on all debts, then put extra toward the smallest debt\n" ++
    "   - Consider balance transfer cards with 0% introductory rates for credit card debt\n" ++
    "   - Look for ways to increase your income to accelerate debt repayment\n" ++
    "   - Cut unnecessary expenses to free up more money for debt payments\n" ++
    "   - Consider selling assets to pay down high-interest debt\n"

/-- The month-difference computation the goal template performs on each
goal (`(targetYear - thisYear) * 12 + (targetMonth - thisMonth)`). -/
def monthsUntilTarget (today target : DateV) : Int :=
  (target.year - today.year) * 12 + (target.month - today.month)

/-- `generateGoalAchievementAdvice` (the `cashFlow` and `netWorth`
parameters are passed but unused, as in the source). -/
def generateGoalAchievementAdvice (today : DateV) (goals : List Goal)
    (cashFlow netWorth : ℚ) : String :=
  let shortTermGoals := goals.filter (fun g => monthsUntilTarget today g.targetDate ≤ 12)
  let longTermGoals := goals.filter (fun g => monthsUntilTarget today g.targetDate > 12)
  let advice := "Here are strategies to help you achieve your financial goals:\n\n"
  let advice := advice ++ "1. Based on your current goals:\n"
  let advice := advice ++
    (if shortTermGoals.length > 0 then
      "   - For short-term goals (within 1 year), focus on saving a specific amount each month\n" ++
      "   - Consider using a high-yield savings account for short-term goals\n"
    else "")
  let advice := advice ++
    (if longTermGoals.length > 0 then
      "   - For long-term goals, invest in growth-oriented assets like stocks or real estate\n" ++
      "   - Take advantage of compound interest by starting early\n"
    else "")
  advice ++ "\n2. General strategies to achieve your goals:\n" ++
    "   - Make your goals SMART: Specific, Measurable, Achievable, Relevant, Time-bound\n" ++
    "   - Automate savings and investments to ensure consistent progress\n" ++
    "   - Review your goals regularly and adjust as needed\n" ++
    "   - Celebrate small wins along the way to stay motivated\n" ++
    "   - Consider using apps or tools to track your progress\n"

/-- `generateGeneralFinancialAdvice`: the five-category overview (the
`cashFlow` parameter is passed but unused, as in the source).  The
passive-income share is guarded by the `activeIncome > 0` ternary. -/
def generateGeneralFinancialAdvice (incomes : List Income) (expenses : List Expense)
    (assets : List Asset) (liabilities : List Liability) (goals : List Goal)
    (cashFlow passiveIncome netWorth : ℚ) : String :=
  let activeIncome :=
    (incomes.filter (fun i => i.incomeType == "active")).foldl (fun sum i => sum + i.amount) 0
  let passiveIncomePercentage : Option ℚ :=
    if activeIncome > 0 then jsMul (jsDiv passiveIncome activeIncome) 100 else some 0
  let advice := "Based on your financial data, here\x27s a comprehensive overview and advice:\n\n"
  let advice := advice ++ "1. Income: Your active income is " ++ toFixedQ 2 activeIncome ++
    ", with " ++ jsToFixed 1 passiveIncomePercentage ++ "% coming from passive sources. " ++
    "To increase your income:\n" ++
    "   - Look for opportunities to increase your active income (raises, side hustles)\n" ++
    "   - Focus on building passive income streams (investments, rental properties)\n" ++
    "   - Develop new skills that command higher pay\n\n"
  let totalExpenses := expenses.foldl (fun sum e => sum + e.amount) 0
  let advice := advice ++ "2. Expenses: Your monthly expenses total " ++
    toFixedQ 2 totalExpenses ++ ". " ++
    "To optimize your spending:\n" ++
    "   - Review your largest expense categories for potential savings\n" ++
    "   - Consider the 50/30/20 budget rule\n" ++
    "   - Look for ways to reduce recurring expenses\n\n"
  let totalAssets := assets.foldl (fun sum a => sum + a.value) 0
  let advice := advice ++ "3. Assets: Your total assets are valued at " ++
    toFixedQ 2 totalAssets ++ ". " ++
    "To grow your assets:\n" ++
    "   - Diversify your investments across different asset classes\n" ++
    "   - Reinvest returns to take advantage of compound growth\n" ++
    "   - Consider tax-advantaged investment accounts\n\n"
  let totalLiabilities := liabilities.foldl (fun sum l => sum + l.amount) 0
  let advice := advice ++ "4. Liabilities: Your total liabilities are " ++
    toFixedQ 2 totalLiabilities ++ ". " ++
    "To reduce your debt:\n" ++
    "   - Prioritize high-interest debt first\n" ++
    "   - Consider debt consolidation for lower interest rates\n" ++
    "   - Create a specific debt repayment plan\n\n"
  let advice := advice ++ "5. Net Worth: Your current net worth is " ++
    toFixedQ 2 netWorth ++ ". " ++
    "To increase your net worth:\n" ++
    "   - Focus on increasing assets while reducing liabilities\n" ++
    "   - Maintain a positive cash flow to fund investments\n" ++
    "   - Set specific net worth goals and track progress regularly\n\n"
  advice ++ "6. Goals: You have " ++ toString goals.length ++ " financial goals. " ++
    "To achieve your goals:\n" ++
    "   - Prioritize goals based on importance and timeline\n" ++
    "   - Allocate your resources (time, money) accordingly\n" ++
    "   - Review and adjust your goals regularly\n"

/-- `generateFinancialAdvice`: keyword-containment dispatch on the
lower-cased query, in source order. -/
def generateFinancialAdvice (today : DateV) (request : AIRequest) : String :=
  let userData := request.userData
  let summary := userData.summary
  let totalExpenses := summary.totalExpenses
  let cashFlow := summary.cashFlow
  let passiveIncome := summary.passiveIncome
  let netWorth := summary.netWorth
  let largestExpenseCategory := summary.largestExpenseCategory
  let largestExpenseAmount := summary.largestExpenseAmount
  let lowerQuery := jsToLower request.query
  if jsIncludes lowerQuery "reduce" &&
      (jsIncludes lowerQuery "expense" || jsIncludes lowerQuery "spending") then
    generateExpenseReductionAdvice userData.expenses totalExpenses
      largestExpenseCategory largestExpenseAmount
  else if jsIncludes lowerQuery "increase" && jsIncludes lowerQuery "asset" then
    generateAssetIncreaseAdvice userData.assets netWorth passiveIncome
  else if (jsIncludes lowerQuery "reduce" || jsIncludes lowerQuery "pay off") &&
      jsIncludes lowerQuery "liability" then
    generateLiabilityReductionAdvice userData.liabilities cashFlow
  else if jsIncludes lowerQuery "goal" || jsIncludes lowerQuery "reach" then
    generateGoalAchievementAdvice today userData.goals cashFlow netWorth
  else
    generateGeneralFinancialAdvice userData.incomes userData.expenses
      userData.assets userData.liabilities userData.goals
      cashFlow passiveIncome netWorth

/-! ## Helper lemmas -/

/-- A scoped `(id, userId)` lookup misses every row when the id column is
duplicate-free (the primary key), the probed id belongs to row `r`, and
`r`'s owner is not the probing user. -/
theorem find?_owner_scope {α : Type} (idf : α → String) (uf : α → Nat)
    (l : List α) (r : α) (u2 : Nat)
    (hr : r ∈ l) (hru : uf r ≠ u2)
    (hnodup : (l.map idf).Nodup) :
    l.find? (fun x => idf x == idf r && uf x == u2) = none := by
  rw [List.find?_eq_none]
  intro x hx hcontra
  rw [Bool.and_eq_true, beq_iff_eq, beq_iff_eq] at hcontra
  obtain ⟨h1, h2⟩ := hcontra
  exact hru ((List.inj_on_of_nodup_map hnodup hx hr h1) ▸ h2)

/-- A scoped lookup misses every row when no row carries the probed id. -/
theorem find?_no_id {α : Type} (idf : α → String) (uf : α → Nat)
    (l : List α) (i : String) (u2 : Nat)
    (hi : ∀ x ∈ l, idf x ≠ i) :
    l.find? (fun x => idf x == i && uf x == u2) = none := by
  rw [List.find?_eq_none]
  intro x hx hcontra
  rw [Bool.and_eq_true, beq_iff_eq, beq_iff_eq] at hcontra
  exact hi x hx hcontra.1

/-! ## Concrete fixtures for witnesses and counterexamples -/

/-- An income row owned by user 1. -/
def incomeRowW : IncomeRow :=
  { id := "i1", userId := 1, source := "Salary", category := "Job"
    amount := 5000, incomeType := "active", frequency := "monthly", notes := none }

/-- A goal row owned by user 1. -/
def goalRowW : GoalRow :=
  { id := "g1", userId := 1, description := "House", targetAmount := 100000
    currentAmount := 10000, targetDate := { year := 2026, month := 5 } }

/-- A database holding one income and one goal, both owned by user 1. -/
def dbW : DB :=
  { users := [], incomes := [incomeRowW], expenses := [], assets := []
    liabilities := [], goals := [goalRowW], fresh := 0 }

/-! ## C1 -/

/-- C1: the get-one-by-id repository reads (shown for `getIncome` and
`getGoal`) filter by the caller's `userId`: with the id column
duplicate-free (it is the primary key), a lookup of a record owned by `U`
by any other user returns `undefined`, exactly like a lookup with an id
that no row carries. -/
theorem claim1_get_scoped_by_user (db : DB) (r : IncomeRow) (g : GoalRow)
    (u2 : Nat) (i j : String)
    (hr : r ∈ db.incomes) (hru : r.userId ≠ u2)
    (hg : g ∈ db.goals) (hgu : g.userId ≠ u2)
    (hnI : (db.incomes.map IncomeRow.id).Nodup)
    (hnG : (db.goals.map GoalRow.id).Nodup)
    (hi : ∀ x ∈ db.incomes, x.id ≠ i)
    (hj : ∀ x ∈ db.goals, x.id ≠ j) :
    getIncome r.id u2 db = none ∧ getGoal g.id u2 db = none ∧
    getIncome i u2 db = none ∧ getGoal j u2 db = none := by
  refine ⟨?_, ?_, ?_, ?_⟩
  · unfold getIncome
    rw [find?_owner_scope IncomeRow.id IncomeRow.userId db.incomes r u2 hr hru hnI]
    rfl
  · unfold getGoal
    rw [find?_owner_scope GoalRow.id GoalRow.userId db.goals g u2 hg hgu hnG]
    rfl
  · unfold getIncome
    rw [find?_no_id IncomeRow.id IncomeRow.userId db.incomes i u2 hi]
    rfl
  · unfold getGoal
    rw [find?_no_id GoalRow.id GoalRow.userId db.goals j u2 hj]
    rfl

/-- C1 witness: user 2 probing user 1's income and goal ids gets
`undefined`, as for an id nobody has. -/
theorem claim1_witness :
    getIncome "i1" 2 dbW = none ∧ getGoal "g1" 2 dbW = none ∧
    getIncome "zz" 2 dbW = none ∧ getGoal "zz" 2 dbW = none :=
  claim1_get_scoped_by_user dbW incomeRowW goalRowW 2 "zz" "zz"
    (by simp [dbW]) (by decide) (by simp [dbW]) (by decide)
    (by decide) (by decide) (by decide) (by decide)

/-! ## C3 -/

/-- C3 counterexample: a cross-user `DELETE /goals/:id` answers 204, not
the claimed 404, and the goal row survives. -/
theorem claim3_counterexample :
    (deleteGoalRoute "g1" 2 dbW).1.status = 204 ∧
    (deleteGoalRoute "g1" 2 dbW).1.status ≠ 404 ∧
    (deleteGoalRoute "g1" 2 dbW).2.goals = dbW.goals := by
  refine ⟨rfl, by decide, rfl⟩

/-- C3 amended: `DELETE /goals/:id` answers 204 for every id — in
particular for a goal owned by another user and for a nonexistent id, the
same status in both cases — and every goal owned by a different user is
left unchanged. -/
theorem claim3_delete_goal_status (db : DB) (uid : Nat) (idA idB : String) :
    (deleteGoalRoute idA uid db).1.status = 204 ∧
    (deleteGoalRoute idA uid db).1.status = (deleteGoalRoute idB uid db).1.status ∧
    (∀ g ∈ db.goals, g.userId ≠ uid → g ∈ (deleteGoalRoute idA uid db).2.goals) := by
  refine ⟨rfl, rfl, ?_⟩
  intro g hg hgu
  simp only [deleteGoalRoute, deleteGoal, List.mem_filter]
  refine ⟨hg, ?_⟩
  simp [hgu]

/-- C3 witness: the amended statement at the cross-user instance. -/
theorem claim3_witness :
    (deleteGoalRoute "g1" 2 dbW).1.status = 204 ∧
    goalRowW ∈ (deleteGoalRoute "g1" 2 dbW).2.goals :=
  ⟨(claim3_delete_goal_status dbW 2 "g1" "zz").1,
   (claim3_delete_goal_status dbW 2 "g1" "zz").2.2 goalRowW (by simp [dbW]) (by decide)⟩

/-! ## C5 -/

/-- An income row of user 1 whose `notes` column holds the empty string. -/
def incomeRowEmptyNotes : IncomeRow :=
  { id := "i1", userId := 1, source := "Salary", category := "Job"
    amount := 100, incomeType := "active", frequency := "monthly", notes := some "" }

/-- An income row of user 1 whose `notes` column is SQL `NULL`. -/
def incomeRowNullNotes : IncomeRow :=
  { id := "i2", userId := 1, source := "Rent", category := "Other"
    amount := 200, incomeType := "passive", frequency := "monthly", notes := none }

/-- A database holding the two notes variants. -/
def dbNotes : DB :=
  { users := [], incomes := [incomeRowEmptyNotes, incomeRowNullNotes]
    expenses := [], assets := [], liabilities := [], goals := [], fresh := 0 }

/-- C5 counterexample: a record stored with `notes = ""` reads back with
`notes = ""`, not with the no-value representation that a `NULL` notes
reads back as — the two stored forms are distinguishable to the reader
(`?? undefined` only rewrites `null`/`undefined`, not the empty string). -/
theorem claim5_counterexample :
    (getIncome "i1" 1 dbNotes).map Income.notes = some (some "") ∧
    (getIncome "i1" 1 dbNotes).map Income.notes ≠ some none ∧
    (getIncome "i2" 1 dbNotes).map Income.notes = some none ∧
    (getAllIncomes 1 dbNotes).map Income.notes = [some "", none] := by
  refine ⟨rfl, by decide, rfl, rfl⟩

/-- C5 amended: repository reads return `notes` exactly as stored —
`NULL`/absent maps to the no-value representation (`undefined`), while a
stored empty string is returned as the empty string, so the two stored
forms remain distinguishable (shown for `getAllIncomes` and `getIncome`). -/
theorem claim5_notes_read_back (db : DB) (uid : Nat) (i : String) :
    (getAllIncomes uid db).map Income.notes =
      (db.incomes.filter (fun r => r.userId == uid)).map IncomeRow.notes ∧
    (getIncome i uid db).map Income.notes =
      (db.incomes.find? (fun r => r.id == i && r.userId == uid)).map IncomeRow.notes := by
  constructor
  · rw [getAllIncomes, List.map_map]
    rfl
  · rw [getIncome, Option.map_map]
    rfl

/-! ## C2 -/

/-- A password user for the login fixtures. -/
def userAlice : UserRow :=
  { id := 1, username := "alice", password := some "hash1", email := "a@x.com"
    googleId := none, googleName := none, googlePicture := none, lastLogin := none }

/-- A database holding only `userAlice`. -/
def dbAuth : DB :=
  { users := [userAlice], incomes := [], expenses := [], assets := []
    liabilities := [], goals := [], fresh := 0 }

/-- A stand-in bcrypt verifier for concrete runs: the password verifies
against a hash exactly when the two strings are equal. -/
def eqVerify : String → String → Bool :=
  fun p h => p == h

/-- C2 counterexample: the two failing login runs are observably
different — the unknown-username run answers with the message
`User not found` and the known-username wrong-password run with
`Invalid password`, so the response does reveal whether the username
exists. -/
theorem claim2_counterexample :
    (loginRoute eqVerify { username := some "mallory", password := some "pw" } 0 dbAuth).1.error =
      some "User not found" ∧
    (loginRoute eqVerify { username := some "alice", password := some "wrong" } 0 dbAuth).1.error =
      some "Invalid password" ∧
    (loginRoute eqVerify { username := some "mallory", password := some "pw" } 0 dbAuth).1.error ≠
      (loginRoute eqVerify { username := some "alice", password := some "wrong" } 0 dbAuth).1.error := by
  refine ⟨rfl, rfl, by decide⟩

/-- C2 amended: both failure modes produce an HTTP 401 authentication
error and leave the state unchanged, but the error messages differ —
`User not found` when the username is unknown versus `Invalid password`
when the stored hash does not verify — so the response reveals whether
the username exists. -/
theorem claim2_login_error_messages (verify : String → String → Bool)
    (db : DB) (un pw : String) (now : Nat)
    (hun : un ≠ "") (hpw : pw ≠ "") :
    (db.users.find? (fun u => u.username == un) = none →
      loginRoute verify { username := some un, password := some pw } now db =
        ({ status := 401, error := some "User not found" }, db)) ∧
    (∀ u, db.users.find? (fun v => v.username == un) = some u →
      ∀ h, u.password = some h → verify pw h = false →
      loginRoute verify { username := some un, password := some pw } now db =
        ({ status := 401, error := some "Invalid password" }, db)) := by
  have hcond : (isFalsyStr (some un) || isFalsyStr (some pw)) = false := by
    simp [isFalsyStr, hun, hpw]
  constructor
  · intro hfind
    have hlog : login verify un pw now db = Except.error "User not found" := by
      unfold login
      rw [hfind]
    simp [loginRoute, hcond, hlog]
  · intro u hfind h hp hv
    have hlog : login verify un pw now db = Except.error "Invalid password" := by
      unfold login
      rw [hfind]
      simp [comparePasswords, hp, hv]
    simp [loginRoute, hcond, hlog]

/-- C2 witness: the amended statement at the two concrete failing runs. -/
theorem claim2_witness :
    loginRoute eqVerify { username := some "mallory", password := some "pw" } 0 dbAuth =
      ({ status := 401, error := some "User not found" }, dbAuth) ∧
    loginRoute eqVerify { username := some "alice", password := some "wrong" } 0 dbAuth =
      ({ status := 401, error := some "Invalid password" }, dbAuth) :=
  ⟨(claim2_login_error_messages eqVerify dbAuth "mallory" "pw" 0
      (by decide) (by decide)).1 rfl,
   (claim2_login_error_messages eqVerify dbAuth "alice" "wrong" 0
      (by decide) (by decide)).2 userAlice rfl "hash1" rfl (by decide)⟩

/-! ## C7 -/

/-- C7: the create routes (shown for `POST /incomes` and `POST /assets`)
zod-parse the request body before any persistence call: whenever parsing
fails, the response is 400 carrying the structured validation errors and
the database is unchanged — no write, partial or otherwise. -/
theorem claim7_validation_before_write (uid : Nat) (db : DB)
    (bi : RawIncomeBody) (ba : RawAssetBody)
    (hbi : incomeBodyErrors bi ≠ []) (hba : assetBodyErrors ba ≠ []) :
    (postIncomes uid bi db).1.status = 400 ∧
    (postIncomes uid bi db).1.errors = some (incomeBodyErrors bi) ∧
    (postIncomes uid bi db).2 = db ∧
    (postAssets uid ba db).1.status = 400 ∧
    (postAssets uid ba db).1.errors = some (assetBodyErrors ba) ∧
    (postAssets uid ba db).2 = db := by
  rcases h1 : incomeBodyErrors bi with _ | ⟨e, es⟩
  · exact absurd h1 hbi
  rcases h2 : assetBodyErrors ba with _ | ⟨f, fs⟩
  · exact absurd h2 hba
  refine ⟨?_, ?_, ?_, ?_, ?_, ?_⟩ <;>
    simp [postIncomes, postAssets, parseInsertIncome, parseInsertAsset, h1, h2]

/-- A `POST /incomes` body missing every field but `source`. -/
def badIncomeBody : RawIncomeBody :=
  { source := some "Salary" }

/-- A `POST /assets` body with an empty `name` and missing numerics. -/
def badAssetBody : RawAssetBody :=
  { name := some "", category := some "Cash" }

/-- C7 witness: the two malformed bodies get 400 with their field errors
and leave the database untouched. -/
theorem claim7_witness :
    (postIncomes 1 badIncomeBody dbW).1.status = 400 ∧
    (postIncomes 1 badIncomeBody dbW).1.errors = some (incomeBodyErrors badIncomeBody) ∧
    (postIncomes 1 badIncomeBody dbW).2 = dbW ∧
    (postAssets 1 badAssetBody dbW).1.status = 400 ∧
    (postAssets 1 badAssetBody dbW).1.errors = some (assetBodyErrors badAssetBody) ∧
    (postAssets 1 badAssetBody dbW).2 = dbW :=
  claim7_validation_before_write 1 dbW badIncomeBody badAssetBody
    (by decide) (by decide)

/-! ## C10 -/

/-- An expense row of user 1 carrying notes. -/
def expenseRowW : ExpenseRow :=
  { id := "e1", userId := 1, category := "Food", amount := 200
    description := "Groceries", date := 0, notes := some "weekly run" }

/-- A liability row of user 1 carrying notes. -/
def liabilityRowW : LiabilityRow :=
  { id := "l1", userId := 1, description := "Car loan", ltype := "Loan"
    amount := 9000, interestRate := 6, notes := some "refinance soon" }

/-- C10: the partial updates (shown for income, expense and liability)
are not frame-preserving on `notes` — a patch that omits `notes` writes
`NULL` over the stored value (because the update data always sets
`notes: patch.notes ?? null`), while an omitted `amount` leaves the
stored value unchanged; and each update rewrites exactly the rows
matching `(id, userId)` with that patch application. -/
theorem claim10_notes_frame_violation
    (pI : IncomePatch) (pE : ExpensePatch) (pL : LiabilityPatch)
    (rI : IncomeRow) (rE : ExpenseRow) (rL : LiabilityRow)
    (hI : pI.notes = none) (hE : pE.notes = none) (hL : pL.notes = none)
    (hIa : pI.amount = none) (hEa : pE.amount = none) (hLa : pL.amount = none) :
    ((applyIncomePatch rI pI).notes = none ∧ (applyIncomePatch rI pI).amount = rI.amount) ∧
    ((applyExpensePatch rE pE).notes = none ∧ (applyExpensePatch rE pE).amount = rE.amount) ∧
    ((applyLiabilityPatch rL pL).notes = none ∧ (applyLiabilityPatch rL pL).amount = rL.amount) ∧
    (∀ i uid db, (updateIncome i pI uid db).incomes =
      db.incomes.map (fun r => if r.id == i && r.userId == uid then applyIncomePatch r pI else r)) ∧
    (∀ i uid db, (updateExpense i pE uid db).expenses =
      db.expenses.map (fun r => if r.id == i && r.userId == uid then applyExpensePatch r pE else r)) ∧
    (∀ i uid db, (updateLiability i pL uid db).liabilities =
      db.liabilities.map (fun r => if r.id == i && r.userId == uid then applyLiabilityPatch r pL else r)) := by
  refine ⟨⟨?_, ?_⟩, ⟨?_, ?_⟩, ⟨?_, ?_⟩,
    fun i uid db => rfl, fun i uid db => rfl, fun i uid db => rfl⟩ <;>
    simp [applyIncomePatch, applyExpensePatch, applyLiabilityPatch,
      hI, hE, hL, hIa, hEa, hLa]

/-- C10 witness: the all-omitted patch clobbers the stored notes of the
three fixture rows while leaving their amounts unchanged. -/
theorem claim10_witness :
    (applyIncomePatch incomeRowEmptyNotes {}).notes = none ∧
    (applyIncomePatch incomeRowEmptyNotes {}).amount = incomeRowEmptyNotes.amount ∧
    (applyExpensePatch expenseRowW {}).notes = none ∧
    (applyExpensePatch expenseRowW {}).amount = expenseRowW.amount ∧
    (applyLiabilityPatch liabilityRowW {}).notes = none ∧
    (applyLiabilityPatch liabilityRowW {}).amount = liabilityRowW.amount := by
  have h := claim10_notes_frame_violation {} {} {}
    incomeRowEmptyNotes expenseRowW liabilityRowW rfl rfl rfl rfl rfl rfl
  exact ⟨h.1.1, h.1.2, h.2.1.1, h.2.1.2, h.2.2.1.1, h.2.2.1.2⟩

/-! ## C8 -/

/-- C8: a two-element bulk-sync `PUT` (shown for `/expenses` and
`/incomes`) whose first element carries an id and whose second does not
behaves as the scoped update of the first followed by a create of the
second for the caller; rows of other users are untouched, and the 200
response body is the caller's full list read from the final state. -/
theorem claim8_bulk_upsert (uid : Nat) (db : DB)
    (e1 e2 : SyncExpenseItem) (i : String)
    (h1 : e1.id = some i) (h2 : e2.id = none)
    (n1 n2 : SyncIncomeItem) (k : String)
    (g1 : n1.id = some k) (g2 : n2.id = none) :
    (putExpenses uid [e1, e2] db).2 =
      (createExpense (syncExpenseInsert uid e2)
        (updateExpense i (syncExpensePatch e1) uid db)).2 ∧
    (putExpenses uid [e1, e2] db).1.status = 200 ∧
    (putExpenses uid [e1, e2] db).1.body =
      some (getAllExpenses uid (putExpenses uid [e1, e2] db).2) ∧
    (∀ r ∈ db.expenses, r.userId ≠ uid → r ∈ (putExpenses uid [e1, e2] db).2.expenses) ∧
    (putIncomes uid [n1, n2] db).2 =
      (createIncome (syncIncomeInsert uid n2)
        (updateIncome k (syncIncomePatch n1) uid db)).2 ∧
    (putIncomes uid [n1, n2] db).1.status = 200 ∧
    (putIncomes uid [n1, n2] db).1.body =
      some (getAllIncomes uid (putIncomes uid [n1, n2] db).2) := by
  refine ⟨?_, ?_, ?_, ?_, ?_, ?_, ?_⟩
  · simp [putExpenses, h1, h2]
  · rfl
  · simp [putExpenses, h1, h2]
  · intro r hr hru
    simp only [putExpenses, List.foldl_cons, List.foldl_nil, h1, h2,
      updateExpense, createExpense]
    simp only [List.mem_append, List.mem_map]
    left
    refine ⟨r, hr, ?_⟩
    have : (r.userId == uid) = false := by
      simp [hru]
    simp [this]
  · simp [putIncomes, g1, g2]
  · rfl
  · simp [putIncomes, g1, g2]

/-- An update element for the expense bulk sync, targeting `e1`. -/
def syncItemUpdate : SyncExpenseItem :=
  { id := some "e1", category := "Food", amount := 250
    description := "Groceries and snacks", date := 5 }

/-- A create element for the expense bulk sync (no id). -/
def syncItemCreate : SyncExpenseItem :=
  { category := "Fun", amount := 50, description := "Movie", date := 6 }

/-- An update element for the income bulk sync, targeting `i1`. -/
def syncIncomeUpdate : SyncIncomeItem :=
  { id := some "i1", source := "Salary", category := "Job", amount := 5200
    incomeType := "active", frequency := "monthly", notes := some "raise" }

/-- A create element for the income bulk sync (no id). -/
def syncIncomeCreate : SyncIncomeItem :=
  { source := "Dividends", category := "Investing", amount := 80
    incomeType := "passive", frequency := "annually" }

/-- C8 witness: the concrete two-element syncs factor into
update-then-create and answer 200 with the caller's full list. -/
theorem claim8_witness :
    (putExpenses 1 [syncItemUpdate, syncItemCreate] dbW).2 =
      (createExpense (syncExpenseInsert 1 syncItemCreate)
        (updateExpense "e1" (syncExpensePatch syncItemUpdate) 1 dbW)).2 ∧
    (putExpenses 1 [syncItemUpdate, syncItemCreate] dbW).1.status = 200 ∧
    (putIncomes 1 [syncIncomeUpdate, syncIncomeCreate] dbW).2 =
      (createIncome (syncIncomeInsert 1 syncIncomeCreate)
        (updateIncome "i1" (syncIncomePatch syncIncomeUpdate) 1 dbW)).2 := by
  have h := claim8_bulk_upsert 1 dbW syncItemUpdate syncItemCreate "e1" rfl rfl
    syncIncomeUpdate syncIncomeCreate "i1" rfl rfl
  exact ⟨h.1, h.2.1, h.2.2.2.2.1⟩

/-! ## C4 -/

/-- C4: the advice generator dispatches by keyword containment on the
lower-cased query in the source's fixed priority order: (1) reduce +
expense/spending → expense reduction (regardless of any other words);
(2) increase + asset → asset growth; (3) reduce-or-pay-off + liability →
debt reduction; (4) goal or reach → goal achievement; (5) otherwise the
general overview. -/
theorem claim4_dispatch_priority (today : DateV) (req : AIRequest) :
    ((jsIncludes (jsToLower req.query) "reduce" &&
        (jsIncludes (jsToLower req.query) "expense" ||
          jsIncludes (jsToLower req.query) "spending")) = true →
      generateFinancialAdvice today req =
        generateExpenseReductionAdvice req.userData.expenses
          req.userData.summary.totalExpenses
          req.userData.summary.largestExpenseCategory
          req.userData.summary.largestExpenseAmount) ∧
    ((jsIncludes (jsToLower req.query) "reduce" &&
        (jsIncludes (jsToLower req.query) "expense" ||
          jsIncludes (jsToLower req.query) "spending")) = false →
      (jsIncludes (jsToLower req.query) "increase" &&
        jsIncludes (jsToLower req.query) "asset") = true →
      generateFinancialAdvice today req =
        generateAssetIncreaseAdvice req.userData.assets
          req.userData.summary.netWorth req.userData.summary.passiveIncome) ∧
    ((jsIncludes (jsToLower req.query) "reduce" &&
        (jsIncludes (jsToLower req.query) "expense" ||
          jsIncludes (jsToLower req.query) "spending")) = false →
      (jsIncludes (jsToLower req.query) "increase" &&
        jsIncludes (jsToLower req.query) "asset") = false →
      ((jsIncludes (jsToLower req.query) "reduce" ||
          jsIncludes (jsToLower req.query) "pay off") &&
        jsIncludes (jsToLower req.query) "liability") = true →
      generateFinancialAdvice today req =
        generateLiabilityReductionAdvice req.userData.liabilities
          req.userData.summary.cashFlow) ∧
    ((jsIncludes (jsToLower req.query) "reduce" &&
        (jsIncludes (jsToLower req.query) "expense" ||
          jsIncludes (jsToLower req.query) "spending")) = false →
      (jsIncludes (jsToLower req.query) "increase" &&
        jsIncludes (jsToLower req.query) "asset") = false →
      ((jsIncludes (jsToLower req.query) "reduce" ||
          jsIncludes (jsToLower req.query) "pay off") &&
        jsIncludes (jsToLower req.query) "liability") = false →
      (jsIncludes (jsToLower req.query) "goal" ||
        jsIncludes (jsToLower req.query) "reach") = true →
      generateFinancialAdvice today req =
        generateGoalAchievementAdvice today req.userData.goals
          req.userData.summary.cashFlow req.userData.summary.netWorth) ∧
    ((jsIncludes (jsToLower req.query) "reduce" &&
        (jsIncludes (jsToLower req.query) "expense" ||
          jsIncludes (jsToLower req.query) "spending")) = false →
      (jsIncludes (jsToLower req.query) "increase" &&
        jsIncludes (jsToLower req.query) "asset") = false →
      ((jsIncludes (jsToLower req.query) "reduce" ||
          jsIncludes (jsToLower req.query) "pay off") &&
        jsIncludes (jsToLower req.query) "liability") = false →
      (jsIncludes (jsToLower req.query) "goal" ||
        jsIncludes (jsToLower req.query) "reach") = false →
      generateFinancialAdvice today req =
        generateGeneralFinancialAdvice req.userData.incomes req.userData.expenses
          req.userData.assets req.userData.liabilities req.userData.goals
          req.userData.summary.cashFlow req.userData.summary.passiveIncome
          req.userData.summary.netWorth) := by
  refine ⟨fun h1 => ?_, fun h1 h2 => ?_, fun h1 h2 h3 => ?_,
    fun h1 h2 h3 h4 => ?_, fun h1 h2 h3 h4 => ?_⟩ <;>
    simp [generateFinancialAdvice, *]

/-- A zero summary for the advice fixtures, with Food as the largest
expense category. -/
def summaryW : Summary :=
  { totalIncome := 0, totalExpenses := 0, cashFlow := 0, perDay := 0
    passiveIncome := 0, netWorth := 0, netWorthChange := 0
    largestExpenseCategory := "Food", largestExpenseAmount := 0 }

/-- Empty user data around `summaryW`. -/
def userDataW : UserData :=
  { incomes := [], expenses := [], assets := [], liabilities := []
    goals := [], summary := summaryW }

/-- A query hitting the expense-reduction keywords (with extra words and
mixed case). -/
def reqReduceExpense : AIRequest :=
  { query := "Please REDUCE my expenses now", userData := userDataW }

/-- A query matching none of the four keyword sets. -/
def reqFallback : AIRequest :=
  { query := "hello there", userData := userDataW }

/-- C4 witness: the mixed-case reduce-expense query lands in the
expense-reduction branch despite the extra words; the keyword-free query
falls back to the general overview. -/
theorem claim4_witness :
    generateFinancialAdvice { year := 2025, month := 1 } reqReduceExpense =
      generateExpenseReductionAdvice [] 0 "Food" 0 ∧
    generateFinancialAdvice { year := 2025, month := 1 } reqFallback =
      generateGeneralFinancialAdvice [] [] [] [] [] 0 0 0 :=
  ⟨(claim4_dispatch_priority { year := 2025, month := 1 } reqReduceExpense).1
      (by decide),
   (claim4_dispatch_priority { year := 2025, month := 1 } reqFallback).2.2.2.2
      (by decide) (by decide) (by decide) (by decide)⟩

/-! ## C9 -/

/-- Substring containment survives appending on the right. -/
theorem jsIncludes_append_left (a b pat : String) (h : jsIncludes a pat = true) :
    jsIncludes (a ++ b) pat = true := by
  simp only [jsIncludes, decide_eq_true_eq] at h ⊢
  obtain ⟨s, t, hst⟩ := h
  refine ⟨s, t ++ b.data, ?_⟩
  rw [String.data_append, ← hst]
  simp

/-- Substring containment survives appending on the left. -/
theorem jsIncludes_append_right (a b pat : String) (h : jsIncludes b pat = true) :
    jsIncludes (a ++ b) pat = true := by
  simp only [jsIncludes, decide_eq_true_eq] at h ⊢
  obtain ⟨s, t, hst⟩ := h
  refine ⟨a.data ++ s, t, ?_⟩
  rw [String.data_append, ← hst]
  simp

/-- With zero total expenses the expense-reduction template renders the
undefined percentage, so the produced advice contains the non-numeric
text `NaN`, whatever the category and amount. -/
theorem expenseAdviceNaN (e : List Expense) (cat : String) (amt : ℚ) :
    jsIncludes (generateExpenseReductionAdvice e 0 cat amt) "NaN" = true := by
  have hdiv : jsMul (jsDiv amt 0) 100 = none := by
    simp [jsDiv, jsMul]
  simp only [generateExpenseReductionAdvice, hdiv, jsToFixed]
  apply jsIncludes_append_left
  apply jsIncludes_append_left
  apply jsIncludes_append_left
  apply jsIncludes_append_left
  apply jsIncludes_append_left
  apply jsIncludes_append_left
  apply jsIncludes_append_left
  apply jsIncludes_append_left
  apply jsIncludes_append_left
  apply jsIncludes_append_right
  decide

/-- C9: on a query selecting the expense-reduction branch, a summary with
`totalExpenses = 0` still reaches the branch — there is no zero guard —
and the percentage's division is undefined at that input (`jsDiv` returns
`none`, `NaN`/`Infinity` in JavaScript), whose rendering is interpolated
into the returned advice string. -/
theorem claim9_unguarded_division (today : DateV) (req : AIRequest)
    (hq1 : jsIncludes (jsToLower req.query) "reduce" = true)
    (hq2 : jsIncludes (jsToLower req.query) "expense" = true)
    (h0 : req.userData.summary.totalExpenses = 0) :
    generateFinancialAdvice today req =
      generateExpenseReductionAdvice req.userData.expenses 0
        req.userData.summary.largestExpenseCategory
        req.userData.summary.largestExpenseAmount ∧
    jsDiv req.userData.summary.largestExpenseAmount
      req.userData.summary.totalExpenses = none ∧
    jsIncludes (generateFinancialAdvice today req) "NaN" = true := by
  have hbranch : generateFinancialAdvice today req =
      generateExpenseReductionAdvice req.userData.expenses
        req.userData.summary.totalExpenses
        req.userData.summary.largestExpenseCategory
        req.userData.summary.largestExpenseAmount := by
    simp [generateFinancialAdvice, hq1, hq2]
  refine ⟨?_, ?_, ?_⟩
  · rw [hbranch, h0]
  · rw [h0]
    simp [jsDiv]
  · rw [hbranch, h0]
    exact expenseAdviceNaN req.userData.expenses
      req.userData.summary.largestExpenseCategory
      req.userData.summary.largestExpenseAmount

/-- C9 witness: the concrete reduce-expense query over the zero summary
takes the expense branch, its division is undefined, and `NaN` appears in
the advice text. -/
theorem claim9_witness :
    generateFinancialAdvice { year := 2025, month := 1 } reqReduceExpense =
      generateExpenseReductionAdvice [] 0 "Food" 0 ∧
    jsDiv (0 : ℚ) 0 = none ∧
    jsIncludes (generateFinancialAdvice { year := 2025, month := 1 } reqReduceExpense)
      "NaN" = true :=
  claim9_unguarded_division { year := 2025, month := 1 } reqReduceExpense
    (by decide) (by decide) rfl

end BalanceSheet
